import Mathlib

/-!
Verification development for the nornir_mcp repository
(multi-host task dispatch and result normalization layer).

The definitions below are a shallow embedding of the Python modules
src/nornir_mcp/result.py, src/nornir_mcp/utils.py,
src/nornir_mcp/runners/base_runner.py, src/nornir_mcp/runners/napalm_runner.py
and src/nornir_mcp/tools.py.  Python dynamic values are modelled by the
inductive type PyVal, Python dicts by association lists in insertion
order, and calls into external collaborators (the Nornir inventory and
the per-host task execution) are modelled by explicit parameters that
carry either the returned value or the exception the call raised.
-/

/-- Model of a Python runtime value as it flows through the
normalization layer: None, bools, strings, integers, lists, dicts
(association lists in insertion order) and instances of the
result.Error dataclass (which NapalmRunner.run_getter stores inside
its data dict). -/
inductive PyVal where
  | vnone : PyVal
  | vbool (b : Bool) : PyVal
  | vstr (s : String) : PyVal
  | vint (n : Int) : PyVal
  | vlist (xs : List PyVal) : PyVal
  | vdict (entries : List (String × PyVal)) : PyVal
  | verr (error_type message : String) : PyVal


/-- One record of a Nornir MultiResult, as consumed by
BaseRunner.process_results: the failed flag, the string representation
of the stored exception (str applied to task.exception), and the
result payload. -/
structure TaskRecord where
  failed : Bool
  exceptionStr : String
  result : PyVal


/-- A Nornir AggregatedResult as consumed by the normalizer: a dict
from hostname to the per-host list of task records, modelled as an
association list in iteration order. -/
abbrev AggResult : Type := List (String × List TaskRecord)

/-- The Result type of src/nornir_mcp/result.py: either Success with a
value or Error with an error_type and a message. -/
inductive RResult where
  | success (value : PyVal) : RResult
  | rerror (error_type message : String) : RResult


/-- Success.map and Error.map from src/nornir_mcp/result.py, combined
over the two dataclasses.  The mapped function may raise; a raised
exception e is modelled as Except.error carrying str(e).  Success.map
wraps the call in try/except and turns a raised exception into
Error with error_type mapping_error; Error.map returns self. -/
def RResult.map (r : RResult) (f : PyVal → Except String PyVal) : RResult :=
  match r with
  | RResult.success v =>
    match f v with
    | Except.ok w => RResult.success w
    | Except.error e => RResult.rerror "mapping_error" e
  | RResult.rerror t m => RResult.rerror t m

/-- Python truthiness of an optional string parameter: None and the
empty string are falsy, every other string is truthy. -/
def pyTruthy : Option String → Bool
  | Option.none => false
  | Option.some s => !(s == "")

/-- format_target from src/nornir_mcp/utils.py: the host name if
truthy, else group:NAME if the group name is truthy, else all. -/
def format_target (host_name group_name : Option String) : String :=
  if pyTruthy host_name then host_name.getD ""
  else if pyTruthy group_name then "group:" ++ group_name.getD ""
  else "all"

/-- validate_target_params from src/nornir_mcp/utils.py: raises
ValueError (modelled as Except.error with the message) when both
parameters are truthy, otherwise returns None. -/
def validate_target_params (host_name group_name : Option String) : Except String Unit :=
  if pyTruthy host_name && pyTruthy group_name then
    Except.error "Cannot specify both host_name and group_name"
  else
    Except.ok ()

/-- extract_single_key from src/nornir_mcp/utils.py: when data is a
dict containing key, return the value at key; in every other case
return data unchanged. -/
def extract_single_key (data : PyVal) (key : String) : PyVal :=
  match data with
  | PyVal.vdict entries =>
    match entries.lookup key with
    | Option.some v => v
    | Option.none => PyVal.vdict entries
  | other => other

/-- extract_generic_data from src/nornir_mcp/helpers.py: the identity
passthrough extractor. -/
def extract_generic_data (task_output : PyVal) : PyVal := task_output

/-- The per-host error dict that process_results emits for a failing
host: a dict with the error key set to execution_failed and the
message key set to the given message. -/
def failedEntry (message : String) : PyVal :=
  PyVal.vdict [("error", PyVal.vstr "execution_failed"), ("message", PyVal.vstr message)]

/-- The body of the per-host loop of BaseRunner.process_results: an
empty record list yields the no-results failure entry; a failed
primary task yields a failure entry with str of the exception; a
successful primary task yields the extracted (or raw) payload. -/
def processHost (extractor : Option (PyVal → PyVal)) : List TaskRecord → PyVal
  | [] => failedEntry "No task results available for this host"
  | primary_task :: _ =>
    if primary_task.failed then
      failedEntry primary_task.exceptionStr
    else
      match extractor with
      | Option.some f => f primary_task.result
      | Option.none => primary_task.result

/-- The processed_data dict built by the loop of
BaseRunner.process_results, in iteration order. -/
def processedData (extractor : Option (PyVal → PyVal)) (aggregated_result : AggResult) :
    List (String × PyVal) :=
  aggregated_result.map (fun p => (p.1, processHost extractor p.2))

/-- BaseRunner.process_results from
src/nornir_mcp/runners/base_runner.py: a falsy (empty) aggregated
result yields the no_hosts error; otherwise Success of the
processed_data dict. -/
def process_results (aggregated_result : AggResult)
    (extractor : Option (PyVal → PyVal)) : RResult :=
  if aggregated_result.isEmpty then
    RResult.rerror "no_hosts" "No hosts found for the given target."
  else
    RResult.success (PyVal.vdict (processedData extractor aggregated_result))

/-- Outcome of a call into an external collaborator: the call returns
a value of type a, or raises an exception whose str is the message. -/
inductive CallResult (a : Type) where
  | ok (value : a) : CallResult a
  | exc (message : String) : CallResult a


/-- The single-quote character, used in the message text of
run_getter for an unsupported getter. -/
def squo : String := String.singleton (Char.ofNat 39)

/-- What NapalmRunner.run_getter returns: either the per-host data
dict, or a result.Error object produced by format_error. -/
inductive GetterOutcome where
  | data (d : List (String × PyVal)) : GetterOutcome
  | errObj (error_type message : String) : GetterOutcome


/-- The per-host value stored by the loop of
NapalmRunner.run_getter for a nonempty record list: a failed task
yields a result.Error object with error_type napalm_failed, a
successful task yields res.get(getter) when the payload is a dict
(None when the key is absent) and the raw payload otherwise. -/
def napalmEntry (getter : String) (r : TaskRecord) : PyVal :=
  if r.failed then
    PyVal.verr "napalm_failed" r.exceptionStr
  else
    match r.result with
    | PyVal.vdict entries =>
      match entries.lookup getter with
      | Option.some v => v
      | Option.none => PyVal.vnone
    | other => other

/-- NapalmRunner.run_getter from
src/nornir_mcp/runners/napalm_runner.py, parameterized by the
supported getter set and by the outcome of the run_on_hosts call.
An unsupported getter is rejected first.  Inside the try block: an
exception from run_on_hosts is caught and becomes an execution_error;
a falsy (empty) aggregated result becomes a no_hosts error; the loop
indexes task_result at position zero, so the first empty per-host
record list raises IndexError (str is list index out of range), which
the broad except turns into an execution_error; otherwise the data
dict is built entry by entry with napalmEntry. -/
def run_getter (supported : List String) (getter : String) (hostname : Option String)
    (run_outcome : CallResult AggResult) : GetterOutcome :=
  if !(supported.contains getter) then
    GetterOutcome.errObj "invalid_getter"
      ("Getter " ++ squo ++ getter ++ squo ++ " is not supported by NapalmRunner.")
  else
    match run_outcome with
    | CallResult.exc m => GetterOutcome.errObj "execution_error" m
    | CallResult.ok agg =>
      if agg.isEmpty then
        GetterOutcome.errObj "no_hosts"
          ("No hosts found for target: " ++ (if pyTruthy hostname then hostname.getD "" else "all"))
      else if agg.any (fun p => p.2.isEmpty) then
        GetterOutcome.errObj "execution_error" "list index out of range"
      else
        GetterOutcome.data
          (agg.map (fun p => (p.1, napalmEntry getter (p.2.headD ⟨false, "", PyVal.vnone⟩))))

/-- error_response from src/nornir_mcp/types.py: a dict with an error
key and a message key. -/
def error_response (error_type message : String) : PyVal :=
  PyVal.vdict [("error", PyVal.vstr error_type), ("message", PyVal.vstr message)]

/-- The outcome of calling a Python coroutine at the tool boundary:
it returns a value, or an exception escapes to the caller. -/
inductive PyOutcome where
  | ret (v : PyVal) : PyOutcome
  | raised (message : String) : PyOutcome


/-- Behavior of the awaited runner call inside the try block of a
tool function: it returns data, raises MCPException with an
error_type and message, or raises some other exception. -/
inductive RunnerCall where
  | ret (v : PyVal) : RunnerCall
  | mcpExc (error_type message : String) : RunnerCall
  | exc (message : String) : RunnerCall


/-- run_napalm_getter from src/nornir_mcp/tools.py, parameterized by
the behavior of the get_nornir call and of the runner dispatch.  The
function first validates the target parameters, catching ValueError
and returning an invalid_parameters error response.  It then calls
get_nornir OUTSIDE any try block, so an exception raised there
escapes to the caller.  The try block around the dispatch catches
MCPException into its own error response and any other exception into
an execution_error response; a returned value is wrapped in the
envelope with backend napalm, the getter, the formatted target and
the data. -/
def run_napalm_getter (getter : String) (host_name group_name : Option String)
    (nornir_init : CallResult Unit) (runner_call : RunnerCall) : PyOutcome :=
  match validate_target_params host_name group_name with
  | Except.error e => PyOutcome.ret (error_response "invalid_parameters" e)
  | Except.ok _ =>
    match nornir_init with
    | CallResult.exc m => PyOutcome.raised m
    | CallResult.ok _ =>
      match runner_call with
      | RunnerCall.ret d =>
        PyOutcome.ret (PyVal.vdict
          [("backend", PyVal.vstr "napalm"),
           ("getter", PyVal.vstr getter),
           ("target", PyVal.vstr (format_target host_name group_name)),
           ("data", d)])
      | RunnerCall.mcpExc t m => PyOutcome.ret (error_response t m)
      | RunnerCall.exc m => PyOutcome.ret (error_response "execution_error" m)

/-- run_netmiko_command from src/nornir_mcp/tools.py, with the same
structure as run_napalm_getter: validation first, then the get_nornir
call outside the try block, then the dispatch inside it, wrapped in
the envelope with backend netmiko and the command. -/
def run_netmiko_command (command : String) (host_name group_name : Option String)
    (nornir_init : CallResult Unit) (runner_call : RunnerCall) : PyOutcome :=
  match validate_target_params host_name group_name with
  | Except.error e => PyOutcome.ret (error_response "invalid_parameters" e)
  | Except.ok _ =>
    match nornir_init with
    | CallResult.exc m => PyOutcome.raised m
    | CallResult.ok _ =>
      match runner_call with
      | RunnerCall.ret d =>
        PyOutcome.ret (PyVal.vdict
          [("backend", PyVal.vstr "netmiko"),
           ("command", PyVal.vstr command),
           ("target", PyVal.vstr (format_target host_name group_name)),
           ("data", d)])
      | RunnerCall.mcpExc t m => PyOutcome.ret (error_response t m)
      | RunnerCall.exc m => PyOutcome.ret (error_response "execution_error" m)

/-- Classification predicate used to state the normalizer claims: a
host entry of the aggregated result counts as failing when its record
list is empty or its primary task failed. -/
def hostFails : List TaskRecord → Bool
  | [] => true
  | r :: _ => r.failed

/-- The failure message the normalizer attaches to a failing host:
the no-results text for an empty record list, str of the exception
for a failed primary task. -/
def failMsg : List TaskRecord → String
  | [] => "No task results available for this host"
  | r :: _ => r.exceptionStr

/-- The success payload the normalizer emits for a non-failing host:
the extracted primary result when an extractor is given, the raw
primary result otherwise. -/
def extractOut (extractor : Option (PyVal → PyVal)) : List TaskRecord → PyVal
  | [] => PyVal.vnone
  | r :: _ =>
    match extractor with
    | Option.some f => f r.result
    | Option.none => r.result

/-- Recognizer for the per-host execution_failed error dict emitted
by the normalizer. -/
def isFailEntry : PyVal → Bool
  | PyVal.vdict [("error", PyVal.vstr t), ("message", PyVal.vstr _)] => t == "execution_failed"
  | _ => false

/-- Recognizer for a top-level error response dict with an error key
and a message key. -/
def isErrorResponse : PyVal → Bool
  | PyVal.vdict [("error", PyVal.vstr _), ("message", PyVal.vstr _)] => true
  | _ => false

/-- Recognizer for the napalm success envelope dict produced by
run_napalm_getter. -/
def isNapalmEnvelope : PyVal → Bool
  | PyVal.vdict [("backend", PyVal.vstr b), ("getter", PyVal.vstr _),
                 ("target", PyVal.vstr _), ("data", _)] => b == "napalm"
  | _ => false

/-- Recognizer for the netmiko success envelope dict produced by
run_netmiko_command. -/
def isNetmikoEnvelope : PyVal → Bool
  | PyVal.vdict [("backend", PyVal.vstr b), ("command", PyVal.vstr _),
                 ("target", PyVal.vstr _), ("data", _)] => b == "netmiko"
  | _ => false

/-- Bridge lemma: on a failing host entry (empty record list or failed
primary task) the loop body emits the execution_failed dict carrying
the failure message. -/
theorem processHost_of_fails (extractor : Option (PyVal → PyVal))
    (mr : List TaskRecord) (h : hostFails mr = true) :
    processHost extractor mr = failedEntry (failMsg mr) := by
  cases mr with
  | nil => rfl
  | cons r rest =>
    simp only [hostFails] at h
    simp [processHost, failMsg, h]

/-- Bridge lemma: on a non-failing host entry the loop body emits the
extracted (or raw) success payload. -/
theorem processHost_of_success (extractor : Option (PyVal → PyVal))
    (mr : List TaskRecord) (h : hostFails mr = false) :
    processHost extractor mr = extractOut extractor mr := by
  cases mr with
  | nil => simp [hostFails] at h
  | cons r rest =>
    simp only [hostFails] at h
    cases extractor with
    | none => simp [processHost, extractOut, h]
    | some f => simp [processHost, extractOut, h]

/-- The execution_failed dict is recognized by isFailEntry. -/
theorem isFailEntry_failedEntry (m : String) : isFailEntry (failedEntry m) = true := by
  simp [isFailEntry, failedEntry]

/-- C3: for the empty aggregated result (a dispatch that resolved to
zero targets) process_results returns the distinct no_hosts error,
for every extractor, rather than a Success carrying an empty map. -/
theorem c3_empty_aggregate_no_hosts (extractor : Option (PyVal → PyVal)) :
    process_results ([] : AggResult) extractor =
      RResult.rerror "no_hosts" "No hosts found for the given target." := rfl

/-- C7: extract_single_key returns the value stored at the key when
the data is a dict containing that key, and returns the data
unchanged in every other case (key absent, or data not a dict); being
a total function it raises nothing for a structural mismatch. -/
theorem c7_extract_single_key_spec (data : PyVal) (key : String) :
    (∀ entries v, data = PyVal.vdict entries → entries.lookup key = Option.some v →
      extract_single_key data key = v) ∧
    (∀ entries, data = PyVal.vdict entries → entries.lookup key = Option.none →
      extract_single_key data key = data) ∧
    ((∀ entries, data ≠ PyVal.vdict entries) → extract_single_key data key = data) := by
  refine ⟨?_, ?_, ?_⟩
  · intro entries v hd hl
    subst hd
    simp [extract_single_key, hl]
  · intro entries hd hl
    subst hd
    simp [extract_single_key, hl]
  · intro hnd
    cases data with
    | vdict entries => exact absurd rfl (hnd entries)
    | vnone => rfl
    | vbool b => rfl
    | vstr s => rfl
    | vint n => rfl
    | vlist xs => rfl
    | verr t m => rfl

/-- Witness for C7 at concrete inputs: present key, absent key, and a
non-dict value. -/
theorem c7_extract_single_key_witness :
    extract_single_key (PyVal.vdict [("a", PyVal.vint 1), ("b", PyVal.vint 2)]) "a" =
      PyVal.vint 1 ∧
    extract_single_key (PyVal.vdict [("a", PyVal.vint 1)]) "z" =
      PyVal.vdict [("a", PyVal.vint 1)] ∧
    extract_single_key (PyVal.vlist [PyVal.vint 1, PyVal.vint 2]) "a" =
      PyVal.vlist [PyVal.vint 1, PyVal.vint 2] :=
  ⟨(c7_extract_single_key_spec (PyVal.vdict [("a", PyVal.vint 1), ("b", PyVal.vint 2)]) "a").1
      [("a", PyVal.vint 1), ("b", PyVal.vint 2)] (PyVal.vint 1) rfl rfl,
   (c7_extract_single_key_spec (PyVal.vdict [("a", PyVal.vint 1)]) "z").2.1
      [("a", PyVal.vint 1)] rfl rfl,
   (c7_extract_single_key_spec (PyVal.vlist [PyVal.vint 1, PyVal.vint 2]) "a").2.2
      (fun _entries h => PyVal.noConfusion h)⟩

/-- C9: the map of the Result type never propagates an exception:
mapping over Success applies the function and wraps a normal value in
Success, turns a raised exception into the mapping_error Error, and
mapping over Error returns the Error unchanged. -/
theorem c9_result_map_total :
    (∀ v f w, f v = Except.ok w →
      RResult.map (RResult.success v) f = RResult.success w) ∧
    (∀ v f e, f v = Except.error e →
      RResult.map (RResult.success v) f = RResult.rerror "mapping_error" e) ∧
    (∀ t m f, RResult.map (RResult.rerror t m) f = RResult.rerror t m) := by
  refine ⟨?_, ?_, ?_⟩
  · intro v f w h
    simp [RResult.map, h]
  · intro v f e h
    simp [RResult.map, h]
  · intro t m f
    rfl

/-- Witness for C9 at concrete inputs: a normally returning function
and a raising function. -/
theorem c9_result_map_witness :
    (fun x => Except.ok x : PyVal → Except String PyVal) (PyVal.vint 1) =
      Except.ok (PyVal.vint 1) ∧
    RResult.map (RResult.success (PyVal.vint 1)) (fun x => Except.ok x) =
      RResult.success (PyVal.vint 1) ∧
    RResult.map (RResult.success (PyVal.vint 1))
        (fun _ => Except.error "Something went wrong") =
      RResult.rerror "mapping_error" "Something went wrong" :=
  ⟨rfl,
   c9_result_map_total.1 (PyVal.vint 1) (fun x => Except.ok x) (PyVal.vint 1) rfl,
   c9_result_map_total.2.1 (PyVal.vint 1) (fun _ => Except.error "Something went wrong")
     "Something went wrong" rfl⟩

/-- C10: empty-string filter parameters are treated as absent:
validation passes whenever one side is the empty string, and
format_target maps two empty parameters to all and an empty host with
a non-empty group to the group form. -/
theorem c10_empty_string_params_absent :
    (∀ g, validate_target_params (Option.some "") g = Except.ok ()) ∧
    (∀ h, validate_target_params h (Option.some "") = Except.ok ()) ∧
    format_target (Option.some "") (Option.some "") = "all" ∧
    (∀ g, g ≠ "" → format_target (Option.some "") (Option.some g) = "group:" ++ g) := by
  refine ⟨?_, ?_, rfl, ?_⟩
  · intro g
    simp [validate_target_params, pyTruthy]
  · intro h
    cases h with
    | none => rfl
    | some s => simp [validate_target_params, pyTruthy]
  · intro g hg
    simp [format_target, pyTruthy, hg]

/-- Witness for C10 at a concrete non-empty group name. -/
theorem c10_empty_string_params_witness :
    ("core" : String) ≠ "" ∧
    format_target (Option.some "") (Option.some "core") = "group:" ++ "core" :=
  ⟨by decide, c10_empty_string_params_absent.2.2.2 "core" (by decide)⟩

/-- C8: with no extractor supplied, normalization is the identity on
success payloads: every successful entry of the aggregated result
appears in the processed data with its raw payload unchanged, the
whole call returning Success of that data; the generic extractor of
helpers.py is likewise the identity. -/
theorem c8_no_extractor_identity (agg : AggResult) :
    (∀ h r rest, (h, r :: rest) ∈ agg → r.failed = false →
      (h, r.result) ∈ processedData Option.none agg) ∧
    (agg ≠ [] → process_results agg Option.none =
      RResult.success (PyVal.vdict (processedData Option.none agg))) ∧
    (∀ v, extract_generic_data v = v) := by
  refine ⟨?_, ?_, fun _ => rfl⟩
  · intro h r rest hmem hr
    have := List.mem_map_of_mem (fun p => (p.1, processHost Option.none p.2)) hmem
    simpa [processedData, processHost, hr] using this
  · intro hne
    simp [process_results, List.isEmpty_iff, hne]

/-- Witness for C8 at a concrete one-host success. -/
theorem c8_no_extractor_witness :
    ("r1", PyVal.vstr "out") ∈
      processedData Option.none [("r1", [⟨false, "", PyVal.vstr "out"⟩])] ∧
    process_results [("r1", [⟨false, "", PyVal.vstr "out"⟩])] Option.none =
      RResult.success (PyVal.vdict
        (processedData Option.none [("r1", [⟨false, "", PyVal.vstr "out"⟩])])) :=
  ⟨(c8_no_extractor_identity [("r1", [⟨false, "", PyVal.vstr "out"⟩])]).1
      "r1" ⟨false, "", PyVal.vstr "out"⟩ [] (List.Mem.head _) rfl,
   (c8_no_extractor_identity [("r1", [⟨false, "", PyVal.vstr "out"⟩])]).2.1
      (by simp)⟩

/-- C6: for every target whose primary task failed, the normalized
entry is the execution_failed dict whose message is the string
representation of the stored exception, and the whole normalization
returns a Success value to its caller rather than re-raising. -/
theorem c6_failure_message_is_str_exception (agg : AggResult)
    (extractor : Option (PyVal → PyVal)) :
    (∀ h r rest, (h, r :: rest) ∈ agg → r.failed = true →
      (h, failedEntry r.exceptionStr) ∈ processedData extractor agg) ∧
    (agg ≠ [] → process_results agg extractor =
      RResult.success (PyVal.vdict (processedData extractor agg))) := by
  constructor
  · intro h r rest hmem hr
    have := List.mem_map_of_mem (fun p => (p.1, processHost extractor p.2)) hmem
    simpa [processedData, processHost, hr] using this
  · intro hne
    simp [process_results, List.isEmpty_iff, hne]

/-- Witness for C6 on the scenario from the spec: r1 succeeds with a
facts payload, r2 fails with Connection refused, the extractor pulls
the facts key. -/
theorem c6_failure_message_witness :
    ("r2", failedEntry "Connection refused") ∈
      processedData (Option.some (fun v => extract_single_key v "facts"))
        [("r1", [⟨false, "", PyVal.vdict [("facts", PyVal.vdict [("model", PyVal.vstr "X")])]⟩]),
         ("r2", [⟨true, "Connection refused", PyVal.vnone⟩])] ∧
    process_results
        [("r1", [⟨false, "", PyVal.vdict [("facts", PyVal.vdict [("model", PyVal.vstr "X")])]⟩]),
         ("r2", [⟨true, "Connection refused", PyVal.vnone⟩])]
        (Option.some (fun v => extract_single_key v "facts")) =
      RResult.success (PyVal.vdict
        (processedData (Option.some (fun v => extract_single_key v "facts"))
          [("r1", [⟨false, "", PyVal.vdict [("facts", PyVal.vdict [("model", PyVal.vstr "X")])]⟩]),
           ("r2", [⟨true, "Connection refused", PyVal.vnone⟩])])) :=
  ⟨(c6_failure_message_is_str_exception _ _).1
      "r2" ⟨true, "Connection refused", PyVal.vnone⟩ []
      (List.Mem.tail _ (List.Mem.head _)) rfl,
   (c6_failure_message_is_str_exception _ _).2 (by simp)⟩

/-- C4: when both filter parameters are non-empty, each tool function
returns the invalid_parameters error response, and the returned value
does not depend on the behavior of the inventory initialization or of
the dispatch, which captures that neither is reached. -/
theorem c4_both_params_rejected (getter command : String) (h g : Option String)
    (hH : pyTruthy h = true) (hG : pyTruthy g = true)
    (ni ni2 : CallResult Unit) (rc rc2 : RunnerCall) :
    run_napalm_getter getter h g ni rc =
      PyOutcome.ret (error_response "invalid_parameters"
        "Cannot specify both host_name and group_name") ∧
    run_napalm_getter getter h g ni rc = run_napalm_getter getter h g ni2 rc2 ∧
    run_netmiko_command command h g ni rc =
      PyOutcome.ret (error_response "invalid_parameters"
        "Cannot specify both host_name and group_name") ∧
    run_netmiko_command command h g ni rc = run_netmiko_command command h g ni2 rc2 := by
  have hv : validate_target_params h g =
      Except.error "Cannot specify both host_name and group_name" := by
    simp [validate_target_params, hH, hG]
  refine ⟨?_, ?_, ?_, ?_⟩ <;>
    simp [run_napalm_getter, run_netmiko_command, hv]

/-- Witness for C4 at concrete non-empty host and group names. -/
theorem c4_both_params_witness :
    pyTruthy (Option.some "h1") = true ∧ pyTruthy (Option.some "g1") = true ∧
    run_napalm_getter "facts" (Option.some "h1") (Option.some "g1")
        (CallResult.ok ()) (RunnerCall.ret PyVal.vnone) =
      PyOutcome.ret (error_response "invalid_parameters"
        "Cannot specify both host_name and group_name") :=
  ⟨rfl, rfl,
   (c4_both_params_rejected "facts" "show version" (Option.some "h1") (Option.some "g1")
      rfl rfl (CallResult.ok ()) (CallResult.ok ())
      (RunnerCall.ret PyVal.vnone) (RunnerCall.ret PyVal.vnone)).1⟩

/-- C1: on every non-empty aggregated outcome map with distinct target
names, process_results returns Success of a dict with exactly the same
keys in the same order (no target dropped), whose entry at each
position is a function of that target entry alone (so one target never
affects another); every failing target contributes its
execution_failed dict, every non-failing target its (optionally
extracted) success payload, and — provided no success payload is
itself shaped like a failure dict — the number of execution_failed
entries equals the number of failing targets. -/
theorem c1_normalizer_partition (agg : AggResult) (extractor : Option (PyVal → PyVal))
    (hne : agg ≠ [])
    (hkeys : (agg.map Prod.fst).Nodup)
    (hdist : ∀ p ∈ agg, hostFails p.2 = false →
      isFailEntry (extractOut extractor p.2) = false) :
    process_results agg extractor =
      RResult.success (PyVal.vdict (processedData extractor agg)) ∧
    (processedData extractor agg).map Prod.fst = agg.map Prod.fst ∧
    ((processedData extractor agg).map Prod.fst).Nodup ∧
    (processedData extractor agg).length = agg.length ∧
    (∀ i : Nat, (processedData extractor agg)[i]? =
      (agg[i]?).map (fun p => (p.1, processHost extractor p.2))) ∧
    (∀ p ∈ agg, hostFails p.2 = true →
      (p.1, failedEntry (failMsg p.2)) ∈ processedData extractor agg) ∧
    (∀ p ∈ agg, hostFails p.2 = false →
      (p.1, extractOut extractor p.2) ∈ processedData extractor agg) ∧
    (processedData extractor agg).countP (fun q => isFailEntry q.2) =
      agg.countP (fun p => hostFails p.2) := by
  have hfst : (processedData extractor agg).map Prod.fst = agg.map Prod.fst := by
    simp [processedData]
  refine ⟨?_, hfst, ?_, ?_, ?_, ?_, ?_, ?_⟩
  · simp [process_results, List.isEmpty_iff, hne]
  · rw [hfst]; exact hkeys
  · simp [processedData]
  · intro i
    simp [processedData, List.getElem?_map]
  · intro p hp hfail
    rw [← processHost_of_fails extractor p.2 hfail]
    exact List.mem_map_of_mem (fun q => (q.1, processHost extractor q.2)) hp
  · intro p hp hok
    rw [← processHost_of_success extractor p.2 hok]
    exact List.mem_map_of_mem (fun q => (q.1, processHost extractor q.2)) hp
  · rw [processedData, List.countP_map]
    refine List.countP_congr ?_
    intro p hp
    show isFailEntry (processHost extractor p.2) = true ↔ hostFails p.2 = true
    cases hfail : hostFails p.2 with
    | true =>
      rw [processHost_of_fails extractor p.2 hfail, isFailEntry_failedEntry]
    | false =>
      rw [processHost_of_success extractor p.2 hfail, hdist p hp hfail]

/-- Witness for C1 on a concrete three-target aggregate: r1 succeeds,
r2 has a failed primary task, r3 has an empty record list. -/
theorem c1_normalizer_witness :
    ([("r1", [⟨false, "", PyVal.vstr "a"⟩]),
      ("r2", [⟨true, "boom", PyVal.vnone⟩]),
      ("r3", [])] : AggResult) ≠ [] ∧
    process_results
        [("r1", [⟨false, "", PyVal.vstr "a"⟩]),
         ("r2", [⟨true, "boom", PyVal.vnone⟩]),
         ("r3", [])] Option.none =
      RResult.success (PyVal.vdict (processedData Option.none
        [("r1", [⟨false, "", PyVal.vstr "a"⟩]),
         ("r2", [⟨true, "boom", PyVal.vnone⟩]),
         ("r3", [])])) ∧
    (processedData Option.none
        [("r1", [⟨false, "", PyVal.vstr "a"⟩]),
         ("r2", [⟨true, "boom", PyVal.vnone⟩]),
         ("r3", [])]).countP (fun q => isFailEntry q.2) =
      ([("r1", [⟨false, "", PyVal.vstr "a"⟩]),
        ("r2", [⟨true, "boom", PyVal.vnone⟩]),
        ("r3", [])] : AggResult).countP (fun p => hostFails p.2) :=
  ⟨by simp,
   (c1_normalizer_partition
      [("r1", [⟨false, "", PyVal.vstr "a"⟩]),
       ("r2", [⟨true, "boom", PyVal.vnone⟩]),
       ("r3", [])] Option.none (by simp) (by decide)
      (by decide)).1,
   (c1_normalizer_partition
      [("r1", [⟨false, "", PyVal.vstr "a"⟩]),
       ("r2", [⟨true, "boom", PyVal.vnone⟩]),
       ("r3", [])] Option.none (by simp) (by decide)
      (by decide)).2.2.2.2.2.2.2⟩

/-- C2 counterexample: on a supported getter and an aggregated result
whose single host has an empty record list, NapalmRunner.run_getter
does not produce a per-host execution_failed entry with the
no-results message; the IndexError raised by indexing the empty list
is caught by the broad except clause and the whole call returns a
top-level execution_error object instead. -/
theorem c2_run_getter_empty_counterexample :
    run_getter ["facts"] "facts" Option.none
        (CallResult.ok [("host1", [])]) =
      GetterOutcome.errObj "execution_error" "list index out of range" := by
  rfl

/-- C2 amended: for every target whose per-host record list is empty,
BaseRunner.process_results emits the execution_failed entry with the
no-results message and returns Success without raising; but
NapalmRunner.run_getter, on any aggregated result containing such a
target and any supported getter, instead returns a top-level
execution_error object (the caught IndexError), producing no per-host
entry at all — no exception propagates in either path. -/
theorem c2_empty_multiresult_paths (agg : AggResult) (h : String)
    (hmem : (h, ([] : List TaskRecord)) ∈ agg)
    (extractor : Option (PyVal → PyVal)) :
    (h, failedEntry "No task results available for this host") ∈
      processedData extractor agg ∧
    process_results agg extractor =
      RResult.success (PyVal.vdict (processedData extractor agg)) ∧
    (∀ supported getter hostname, supported.contains getter = true →
      run_getter supported getter hostname (CallResult.ok agg) =
        GetterOutcome.errObj "execution_error" "list index out of range") := by
  have hne : agg ≠ [] := List.ne_nil_of_mem hmem
  refine ⟨?_, ?_, ?_⟩
  · have := List.mem_map_of_mem (fun q => (q.1, processHost extractor q.2)) hmem
    simpa [processedData, processHost] using this
  · simp [process_results, List.isEmpty_iff, hne]
  · intro supported getter hostname hsup
    have hany : agg.any (fun p => p.2.isEmpty) = true := by
      rw [List.any_eq_true]
      exact ⟨(h, []), hmem, by simp⟩
    simp only [run_getter, hsup, Bool.not_true, List.isEmpty_iff, hany, if_false]
    simp [List.isEmpty_iff, hne]

/-- Witness for the amended C2 on a concrete two-host aggregate in
which the first host has an empty record list. -/
theorem c2_empty_multiresult_witness :
    (("h1", ([] : List TaskRecord)) ∈
      ([("h1", []), ("h2", [⟨false, "", PyVal.vstr "ok"⟩])] : AggResult)) ∧
    ("h1", failedEntry "No task results available for this host") ∈
      processedData Option.none
        [("h1", []), ("h2", [⟨false, "", PyVal.vstr "ok"⟩])] ∧
    run_getter ["facts"] "facts" Option.none
        (CallResult.ok [("h1", []), ("h2", [⟨false, "", PyVal.vstr "ok"⟩])]) =
      GetterOutcome.errObj "execution_error" "list index out of range" :=
  ⟨List.Mem.head _,
   (c2_empty_multiresult_paths
      [("h1", []), ("h2", [⟨false, "", PyVal.vstr "ok"⟩])] "h1"
      (List.Mem.head _) Option.none).1,
   (c2_empty_multiresult_paths
      [("h1", []), ("h2", [⟨false, "", PyVal.vstr "ok"⟩])] "h1"
      (List.Mem.head _) Option.none).2.2 ["facts"] "facts" Option.none rfl⟩

/-- C5 counterexample: when the target parameters are valid but the
get_nornir call raises (for example because the configuration file is
missing), the exception escapes run_napalm_getter to its caller,
because the get_nornir call stands outside the try block. -/
theorem c5_tool_can_raise_counterexample :
    run_napalm_getter "facts" Option.none Option.none
        (CallResult.exc "Nornir configuration file not found.")
        (RunnerCall.ret (PyVal.vdict [])) =
      PyOutcome.raised "Nornir configuration file not found." := by
  rfl

/-- Rewriting lemma for the validator: when both parameters are
truthy it raises the ValueError. -/
theorem validate_target_params_both (h g : Option String)
    (hv : (pyTruthy h && pyTruthy g) = true) :
    validate_target_params h g =
      Except.error "Cannot specify both host_name and group_name" := by
  unfold validate_target_params
  rw [hv]
  rfl

/-- Rewriting lemma for the validator: when at most one parameter is
truthy it returns normally. -/
theorem validate_target_params_ok (h g : Option String)
    (hv : (pyTruthy h && pyTruthy g) = false) :
    validate_target_params h g = Except.ok () := by
  unfold validate_target_params
  rw [hv]
  rfl

/-- C5 amended: once the get_nornir call returns normally, each tool
function always returns a dict — either the success envelope of its
backend or an error response with an error key and a message key —
for every behavior of the dispatch, including a raised MCPException
and any other raised exception; and the only way an exception escapes
is the get_nornir call itself, which is reached exactly when
validation passes. -/
theorem c5_tool_boundary (getter command : String) (h g : Option String)
    (rc : RunnerCall) :
    (∃ v, run_napalm_getter getter h g (CallResult.ok ()) rc = PyOutcome.ret v ∧
      (isErrorResponse v || isNapalmEnvelope v) = true) ∧
    (∃ v, run_netmiko_command command h g (CallResult.ok ()) rc = PyOutcome.ret v ∧
      (isErrorResponse v || isNetmikoEnvelope v) = true) ∧
    (∀ m, run_napalm_getter getter h g (CallResult.exc m) rc =
      if pyTruthy h && pyTruthy g then
        PyOutcome.ret (error_response "invalid_parameters"
          "Cannot specify both host_name and group_name")
      else PyOutcome.raised m) := by
  refine ⟨?_, ?_, ?_⟩
  · cases hv : (pyTruthy h && pyTruthy g) with
    | true =>
      refine ⟨error_response "invalid_parameters"
        "Cannot specify both host_name and group_name", ?_, by rfl⟩
      simp [run_napalm_getter, validate_target_params_both h g hv]
    | false =>
      cases rc with
      | ret d =>
        refine ⟨PyVal.vdict
          [("backend", PyVal.vstr "napalm"), ("getter", PyVal.vstr getter),
           ("target", PyVal.vstr (format_target h g)), ("data", d)], ?_, by rfl⟩
        simp [run_napalm_getter, validate_target_params_ok h g hv]
      | mcpExc t m =>
        refine ⟨error_response t m, ?_, by rfl⟩
        simp [run_napalm_getter, validate_target_params_ok h g hv]
      | exc m =>
        refine ⟨error_response "execution_error" m, ?_, by rfl⟩
        simp [run_napalm_getter, validate_target_params_ok h g hv]
  · cases hv : (pyTruthy h && pyTruthy g) with
    | true =>
      refine ⟨error_response "invalid_parameters"
        "Cannot specify both host_name and group_name", ?_, by rfl⟩
      simp [run_netmiko_command, validate_target_params_both h g hv]
    | false =>
      cases rc with
      | ret d =>
        refine ⟨PyVal.vdict
          [("backend", PyVal.vstr "netmiko"), ("command", PyVal.vstr command),
           ("target", PyVal.vstr (format_target h g)), ("data", d)], ?_, by rfl⟩
        simp [run_netmiko_command, validate_target_params_ok h g hv]
      | mcpExc t m =>
        refine ⟨error_response t m, ?_, by rfl⟩
        simp [run_netmiko_command, validate_target_params_ok h g hv]
      | exc m =>
        refine ⟨error_response "execution_error" m, ?_, by rfl⟩
        simp [run_netmiko_command, validate_target_params_ok h g hv]
  · intro m
    cases hv : (pyTruthy h && pyTruthy g) with
    | true =>
      simp [run_napalm_getter, validate_target_params_both h g hv, hv]
    | false =>
      simp [run_napalm_getter, validate_target_params_ok h g hv, hv]
